import Mathlib

/-!
Verification of the force model and RK4 integrator of the projectile-motion
repository.  The C++ sources are shallowly embedded over the real numbers:

* `Vector3D`, `Vector4D`   — the vector value types (Projectile.h / vector3d.h);
* `Projectile`             — the kinematic state with its physical parameters,
  its constructor, `calculateAcceleration`, `move` and `isGrounded`
  (Projectile.cpp);
* `rk4Update`, `rk4Loop`, `rk4Simulation` — the standalone RK4 integration
  function `rk4Simulation` of Processing.cpp.  The C++ `while` loop is embedded
  with an explicit fuel argument; `rk4Simulation` supplies a fuel that is
  proved sufficient (the loop guard is false, or the break was taken, whenever
  the returned flag is `true`, and the flag is proved `true` for every positive
  time step), so the fuel is an artifact of the embedding only.

Machine `double` arithmetic is idealized as exact real arithmetic.
-/

set_option maxHeartbeats 1000000

open scoped Classical

/-- Three-component vector, from `class Vector3D` (Projectile.h). -/
@[ext]
structure Vector3D where
  x : ℝ
  y : ℝ
  z : ℝ

/-- Four-component vector `(x, y, z, t)`, from `class Vector4D` (Projectile.h);
the inherited spatial part is flattened into the structure. -/
@[ext]
structure Vector4D where
  x : ℝ
  y : ℝ
  z : ℝ
  t : ℝ

instance : Add Vector3D :=
  ⟨fun a b => ⟨a.x + b.x, a.y + b.y, a.z + b.z⟩⟩

instance : Sub Vector3D :=
  ⟨fun a b => ⟨a.x - b.x, a.y - b.y, a.z - b.z⟩⟩

instance : HMul Vector3D ℝ Vector3D :=
  ⟨fun a s => ⟨a.x * s, a.y * s, a.z * s⟩⟩

noncomputable instance : HDiv Vector3D ℝ Vector3D :=
  ⟨fun a s => ⟨a.x / s, a.y / s, a.z / s⟩⟩

@[simp]
theorem Vector3D.add_x (a b : Vector3D) : (a + b).x = a.x + b.x := rfl

@[simp]
theorem Vector3D.add_y (a b : Vector3D) : (a + b).y = a.y + b.y := rfl

@[simp]
theorem Vector3D.add_z (a b : Vector3D) : (a + b).z = a.z + b.z := rfl

@[simp]
theorem Vector3D.sub_x (a b : Vector3D) : (a - b).x = a.x - b.x := rfl

@[simp]
theorem Vector3D.sub_y (a b : Vector3D) : (a - b).y = a.y - b.y := rfl

@[simp]
theorem Vector3D.sub_z (a b : Vector3D) : (a - b).z = a.z - b.z := rfl

@[simp]
theorem Vector3D.mul_x (a : Vector3D) (s : ℝ) : (a * s).x = a.x * s := rfl

@[simp]
theorem Vector3D.mul_y (a : Vector3D) (s : ℝ) : (a * s).y = a.y * s := rfl

@[simp]
theorem Vector3D.mul_z (a : Vector3D) (s : ℝ) : (a * s).z = a.z * s := rfl

@[simp]
theorem Vector3D.div_x (a : Vector3D) (s : ℝ) : (a / s).x = a.x / s := rfl

@[simp]
theorem Vector3D.div_y (a : Vector3D) (s : ℝ) : (a / s).y = a.y / s := rfl

@[simp]
theorem Vector3D.div_z (a : Vector3D) (s : ℝ) : (a / s).z = a.z / s := rfl

/-- Euclidean norm, from `Vector3D::magnitude` (Projectile.cpp):
`sqrt(x*x + y*y + z*z)`. -/
noncomputable def Vector3D.magnitude (v : Vector3D) : ℝ :=
  Real.sqrt (v.x * v.x + v.y * v.y + v.z * v.z)

/-- Normalization, from `Vector3D::normalize` (Projectile.cpp): if the
magnitude is positive, divide each component by it; otherwise return the zero
vector. -/
noncomputable def Vector3D.normalize (v : Vector3D) : Vector3D :=
  if v.magnitude > 0 then
    ⟨v.x / v.magnitude, v.y / v.magnitude, v.z / v.magnitude⟩
  else ⟨0, 0, 0⟩

/-- Normalization, from `Vector3D::normalized` of the standalone vector module
(src/vector3d.cpp): here the guard tests `mag == 0` instead of `mag > 0`. -/
noncomputable def Vector3D.normalized (v : Vector3D) : Vector3D :=
  if v.magnitude = 0 then ⟨0, 0, 0⟩
  else ⟨v.x / v.magnitude, v.y / v.magnitude, v.z / v.magnitude⟩

/-- Cross product, from `Vector3D::cross` (src/vector3d.cpp). -/
def Vector3D.cross (v other : Vector3D) : Vector3D :=
  ⟨v.y * other.z - v.z * other.y,
   v.z * other.x - v.x * other.z,
   v.x * other.y - v.y * other.x⟩

/-- Gravitational acceleration constant, from
`static constexpr double GRAVITY = 9.81` (Projectile.h). -/
noncomputable def GRAVITY : ℝ := 9.81

/-- Projectile state and physical parameters, from `class Projectile`
(Projectile.h). -/
@[ext]
structure Projectile where
  position : Vector4D
  velocity : Vector3D
  spin : Vector3D
  mass : ℝ
  radius : ℝ
  dragCoefficient : ℝ
  airDensity : ℝ
  S : ℝ

/-- Parameterized constructor `Projectile::Projectile` (Projectile.cpp): all
fields are stored as supplied, except that the spin factor is stored
pre-multiplied by the mass, `S = SOverM * m`.  (Named `construct` because a
definition named `Projectile.Projectile` would shadow the type.) -/
def Projectile.construct (initialPos : Vector4D) (initialVel : Vector3D)
    (initialSpin : Vector3D) (m r airDensity SOverM dragCoeff : ℝ) :
    Projectile :=
  ⟨initialPos, initialVel, initialSpin, m, r, dragCoeff, airDensity,
   SOverM * m⟩

/-- Elapsed time accessor, from `Projectile::getTime` (Projectile.cpp). -/
def Projectile.getTime (p : Projectile) : ℝ := p.position.t

/-- State update, from `Projectile::move` (Projectile.cpp): overwrite position
and velocity, leaving every parameter unchanged. -/
def Projectile.move (p : Projectile) (pos : Vector4D) (vel : Vector3D) :
    Projectile :=
  { p with position := pos, velocity := vel }

/-- Ground test, from `Projectile::isGrounded` (Projectile.cpp):
`position.z <= 0 && velocity.z <= 0`. -/
def Projectile.isGrounded (p : Projectile) : Prop :=
  p.position.z ≤ 0 ∧ p.velocity.z ≤ 0

/-- Net acceleration, from `Projectile::calculateAcceleration`
(Projectile.cpp): gravity, quadratic drag on the velocity relative to the
wind (guarded by a positive-speed check), and the Magnus force
`(spin x relativeVelocity) * S`, summed and divided by the mass. -/
noncomputable def Projectile.calculateAcceleration (p : Projectile)
    (wind : Vector3D) : Vector3D :=
  let gravityForce : Vector3D := ⟨0, 0, -p.mass * GRAVITY⟩
  let relativeVelocity := p.velocity - wind
  let speed := relativeVelocity.magnitude
  let dragForce : Vector3D :=
    if speed > 0 then
      let crossSectionalArea := Real.pi * p.radius * p.radius
      let dragMagnitude :=
        0.5 * p.airDensity * speed * speed * p.dragCoefficient *
          crossSectionalArea
      let dragDirection := relativeVelocity.normalize * (-1.0 : ℝ)
      dragDirection * dragMagnitude
    else ⟨0, 0, 0⟩
  let magnusCross : Vector3D :=
    ⟨p.spin.y * relativeVelocity.z - p.spin.z * relativeVelocity.y,
     p.spin.z * relativeVelocity.x - p.spin.x * relativeVelocity.z,
     p.spin.x * relativeVelocity.y - p.spin.y * relativeVelocity.x⟩
  let magnusForce := magnusCross * p.S
  let totalForce := gravityForce + dragForce + magnusForce
  totalForce / p.mass

/-- Trajectory, from `class Trajectory` (Projectile.h): the ordered list of
recorded `(x, y, z, t)` samples. -/
abbrev Trajectory := List Vector4D

/-- Sample recording, from `Trajectory::addPoint` (Projectile.h): append at
the end. -/
def Trajectory.addPoint (tr : Trajectory) (point : Vector4D) : Trajectory :=
  tr ++ [point]

/-- One RK4 state update, from the body of `rk4Simulation` (Processing.cpp,
lines 34-70): the four staged force evaluations (each performed after
`setVelocity` on the same projectile, i.e. at a perturbed velocity with all
parameters unchanged), the weighted averages, and the new position carrying
time advanced by the step.  Returns `(new_pos, new_vel)`. -/
noncomputable def rk4Update (proj : Projectile) (timeStep : ℝ)
    (wind : Vector3D) : Vector4D × Vector3D :=
  let pos0 : Vector4D := proj.position
  let vel0 : Vector3D := proj.velocity
  let k1_a : Vector3D := proj.calculateAcceleration wind
  let k1_v : Vector3D := k1_a * timeStep
  let k1_x : Vector3D := vel0 * timeStep
  let vel_mid1 : Vector3D := vel0 + (k1_v * (0.5 : ℝ) : Vector3D)
  let k2_a : Vector3D :=
    ({ proj with velocity := vel_mid1 }).calculateAcceleration wind
  let k2_v : Vector3D := k2_a * timeStep
  let k2_x : Vector3D := vel_mid1 * timeStep
  let vel_mid2 : Vector3D := vel0 + (k2_v * (0.5 : ℝ) : Vector3D)
  let k3_a : Vector3D :=
    ({ proj with velocity := vel_mid2 }).calculateAcceleration wind
  let k3_v : Vector3D := k3_a * timeStep
  let k3_x : Vector3D := vel_mid2 * timeStep
  let vel_end : Vector3D := vel0 + k3_v
  let k4_a : Vector3D :=
    ({ proj with velocity := vel_end }).calculateAcceleration wind
  let k4_v : Vector3D := k4_a * timeStep
  let k4_x : Vector3D := vel_end * timeStep
  let new_vel : Vector3D :=
    vel0 +
      ((k1_v + (k2_v * (2.0 : ℝ) : Vector3D) + (k3_v * (2.0 : ℝ) : Vector3D) +
          k4_v) / (6.0 : ℝ) : Vector3D)
  let delta_r : Vector3D :=
    (k1_x + (k2_x * (2.0 : ℝ) : Vector3D) + (k3_x * (2.0 : ℝ) : Vector3D) +
        k4_x) / (6.0 : ℝ)
  (⟨pos0.x + delta_r.x, pos0.y + delta_r.y, pos0.z + delta_r.z,
    pos0.t + timeStep⟩, new_vel)

/-- The `while` loop of `rk4Simulation` (Processing.cpp, lines 33-83), with an
explicit fuel bound on the number of iterations.  The returned `Bool` is
`true` exactly when the loop exited as the C++ loop does (guard false, or the
ground-collision `break`), and `false` when the fuel ran out first.  On the
break path the clamped state is written to the projectile and the loop exits
without appending to the trajectory, exactly as in the source. -/
noncomputable def rk4Loop (timeStep : ℝ) (wind : Vector3D) (maxTime : ℝ) :
    ℕ → Projectile → Trajectory → Projectile × Trajectory × Bool
  | 0, proj, trajectory => (proj, trajectory, false)
  | fuel + 1, proj, trajectory =>
    if ¬proj.isGrounded ∧ proj.getTime < maxTime then
      let np := rk4Update proj timeStep wind
      let proj1 := proj.move np.1 np.2
      if np.1.z < 0 then
        (proj1.move ⟨np.1.x, np.1.y, 0, np.1.t⟩ ⟨0, 0, 0⟩, trajectory, true)
      else
        rk4Loop timeStep wind maxTime fuel proj1
          (trajectory.addPoint proj1.position)
    else (proj, trajectory, true)

/-- The standalone RK4 integration entry point `rk4Simulation`
(Processing.cpp): record the initial position, then run the loop.  The fuel
`⌈(maxTime - t0)/timeStep⌉ + 1` is proved sufficient for every positive time
step, so this equals the unbounded C++ loop.  Both the final projectile state
(the C++ reference parameter) and the trajectory are returned. -/
noncomputable def rk4Simulation (proj : Projectile) (timeStep : ℝ)
    (wind : Vector3D) (maxTime : ℝ) : Projectile × Trajectory × Bool :=
  rk4Loop timeStep wind maxTime
    (⌈(maxTime - proj.getTime) / timeStep⌉₊ + 1) proj
    (Trajectory.addPoint [] proj.position)

/-! ### Specification-side definitions

The following definitions transcribe the specification's wording (not the
source); the theorems below compare them with the source-derived definitions
above. -/

/-- Gravity force as the specification words it: `(0, 0, -mass * 9.81)`. -/
noncomputable def gravityForceSpec (p : Projectile) : Vector3D :=
  ⟨0, 0, -(p.mass * 9.81)⟩

/-- Drag force as the specification words it: for positive relative speed, the
normalized relative velocity scaled by the negated drag magnitude
`0.5 * airDensity * speed^2 * dragCoefficient * (pi * radius^2)`; the zero
vector at zero relative speed. -/
noncomputable def dragForceSpec (p : Projectile) (wind : Vector3D) :
    Vector3D :=
  let rv := p.velocity - wind
  if 0 < rv.magnitude then
    rv.normalize *
      (-(0.5 * p.airDensity * rv.magnitude * rv.magnitude *
          p.dragCoefficient * (Real.pi * p.radius * p.radius)))
  else ⟨0, 0, 0⟩

/-- Magnus force as the specification words it: the cross product of the spin
and the relative velocity, scaled by the stored factor `S` (with no division
by the mass). -/
noncomputable def magnusForceSpec (p : Projectile) (wind : Vector3D) :
    Vector3D :=
  (p.spin.cross (p.velocity - wind)) * p.S

/-- One RK4 step exactly as the specification words it (section 4.3 and claim
C4): four staged force evaluations at perturbed velocities with `k_i_v/2`
written as true halving, the `1-2-2-1` weighted averages divided by six, and
elapsed time advanced by exactly the step. -/
noncomputable def rk4StepSpec (proj : Projectile) (h : ℝ) (wind : Vector3D) :
    Vector4D × Vector3D :=
  let v0 : Vector3D := proj.velocity
  let k1a : Vector3D := proj.calculateAcceleration wind
  let k1v : Vector3D := k1a * h
  let k1x : Vector3D := v0 * h
  let k2a : Vector3D :=
    ({ proj with velocity := v0 + (k1v / (2 : ℝ) : Vector3D)
      }).calculateAcceleration wind
  let k2v : Vector3D := k2a * h
  let k2x : Vector3D := (v0 + (k1v / (2 : ℝ) : Vector3D)) * h
  let k3a : Vector3D :=
    ({ proj with velocity := v0 + (k2v / (2 : ℝ) : Vector3D)
      }).calculateAcceleration wind
  let k3v : Vector3D := k3a * h
  let k3x : Vector3D := (v0 + (k2v / (2 : ℝ) : Vector3D)) * h
  let k4a : Vector3D :=
    ({ proj with velocity := v0 + k3v }).calculateAcceleration wind
  let k4v : Vector3D := k4a * h
  let k4x : Vector3D := (v0 + k3v) * h
  let newv : Vector3D :=
    v0 +
      ((k1v + (k2v * (2 : ℝ) : Vector3D) + (k3v * (2 : ℝ) : Vector3D) + k4v) /
        (6 : ℝ) : Vector3D)
  let dp : Vector3D :=
    (k1x + (k2x * (2 : ℝ) : Vector3D) + (k3x * (2 : ℝ) : Vector3D) + k4x) /
      (6 : ℝ)
  (⟨proj.position.x + dp.x, proj.position.y + dp.y, proj.position.z + dp.z,
    proj.position.t + h⟩, newv)

/-! ### Concrete scenarios used as counterexamples and witnesses -/

/-- A drag-free, spin-free unit-mass projectile dropped from rest at height 1
(time 0).  One RK4 step of size 1 drives its height to `1 - 4.905 < 0`. -/
noncomputable def projC1 : Projectile :=
  Projectile.construct ⟨0, 0, 1, 0⟩ ⟨0, 0, 0⟩ ⟨0, 0, 0⟩ 1 (1 / 10) 0 0 0

/-- A configuration in which mass, time step and maximum time are all
non-positive: the constructor stores the mass `-1` as supplied. -/
noncomputable def projC2 : Projectile :=
  Projectile.construct ⟨0, 0, 1, 0⟩ ⟨0, 0, 0⟩ ⟨0, 0, 0⟩ (-1) (1 / 10) (-1) 0
    (-1)

/-- A drag-free, spin-free unit-mass projectile starting exactly at ground
level (`z = 0`) but moving upward fast (`velocity.z = 100`). -/
noncomputable def projC5 : Projectile :=
  Projectile.construct ⟨0, 0, 0, 0⟩ ⟨0, 0, 100⟩ ⟨0, 0, 0⟩ 1 (1 / 10) 0 0 0

/-! ### Vector helper lemmas -/

theorem Vector3D.magnitude_nonneg (v : Vector3D) : 0 ≤ v.magnitude :=
  Real.sqrt_nonneg _

theorem Vector3D.magnitude_smul (v : Vector3D) (c : ℝ) :
    (v * c).magnitude = |c| * v.magnitude := by
  unfold Vector3D.magnitude
  have h : (v * c).x * (v * c).x + (v * c).y * (v * c).y +
      (v * c).z * (v * c).z = (c * c) * (v.x * v.x + v.y * v.y + v.z * v.z) := by
    simp only [Vector3D.mul_x, Vector3D.mul_y, Vector3D.mul_z]
    ring
  rw [h, Real.sqrt_mul (mul_self_nonneg c), Real.sqrt_mul_self_eq_abs]

theorem Vector3D.normalize_eq_smul (v : Vector3D) (h : 0 < v.magnitude) :
    v.normalize = v * (1 / v.magnitude) := by
  unfold Vector3D.normalize
  rw [if_pos h]
  ext <;> simp <;> ring

theorem Vector3D.normalize_magnitude (v : Vector3D) (h : 0 < v.magnitude) :
    v.normalize.magnitude = 1 := by
  rw [Vector3D.normalize_eq_smul v h, Vector3D.magnitude_smul,
    abs_of_pos (by positivity), one_div, inv_mul_cancel₀ (ne_of_gt h)]

/-! ### C7 : totality of normalization -/

/-- C7: normalizing the zero vector returns the zero vector (for both
`Vector3D::normalize` of the projectile module and `Vector3D::normalized` of
the standalone vector module); normalizing a vector of positive magnitude
divides each component by the magnitude and yields a unit vector; and the two
implementations agree on every input (the operation is a total function). -/
theorem C7_normalize_total :
    ((⟨0, 0, 0⟩ : Vector3D).normalize = ⟨0, 0, 0⟩ ∧
      (⟨0, 0, 0⟩ : Vector3D).normalized = ⟨0, 0, 0⟩) ∧
    (∀ v : Vector3D, 0 < v.magnitude →
      v.normalize =
        ⟨v.x / v.magnitude, v.y / v.magnitude, v.z / v.magnitude⟩ ∧
      v.normalize.magnitude = 1) ∧
    (∀ v : Vector3D, v.normalized = v.normalize) := by
  have hzero : (⟨0, 0, 0⟩ : Vector3D).magnitude = 0 := by
    unfold Vector3D.magnitude
    norm_num
  refine ⟨⟨?_, ?_⟩, ?_, ?_⟩
  · unfold Vector3D.normalize
    rw [hzero, if_neg (lt_irrefl 0)]
  · unfold Vector3D.normalized
    rw [hzero, if_pos rfl]
  · intro v h
    constructor
    · unfold Vector3D.normalize
      rw [if_pos h]
    · exact Vector3D.normalize_magnitude v h
  · intro v
    rcases (Vector3D.magnitude_nonneg v).lt_or_eq with h | h
    · unfold Vector3D.normalized Vector3D.normalize
      rw [if_neg (ne_of_gt h), if_pos h]
    · unfold Vector3D.normalized Vector3D.normalize
      rw [if_pos h.symm, if_neg (by rw [← h]; exact lt_irrefl 0)]

/-- Witness for C7 at the concrete vector `(0, 0, 3)`. -/
theorem C7_normalize_total_witness :
    0 < (⟨0, 0, 3⟩ : Vector3D).magnitude ∧
    ((⟨0, 0, 3⟩ : Vector3D).normalize =
        ⟨0 / (⟨0, 0, 3⟩ : Vector3D).magnitude,
         0 / (⟨0, 0, 3⟩ : Vector3D).magnitude,
         3 / (⟨0, 0, 3⟩ : Vector3D).magnitude⟩ ∧
      (⟨0, 0, 3⟩ : Vector3D).normalize.magnitude = 1) := by
  have h : 0 < (⟨0, 0, 3⟩ : Vector3D).magnitude := by
    unfold Vector3D.magnitude
    exact Real.sqrt_pos.mpr (by norm_num)
  exact ⟨h, C7_normalize_total.2.1 ⟨0, 0, 3⟩ h⟩

/-! ### C3 : the force model decomposition -/

/-- C3: `calculateAcceleration` returns
`(gravity + drag + magnus) / mass` with the three named forces exactly as the
specification describes them; the drag force is zero at zero relative speed
and has the stated magnitude at positive relative speed; and the constructor
stores the spin factor pre-multiplied by the mass, `S = SOverM * m`. -/
theorem C3_calculateAcceleration_decomposition :
    (∀ (p : Projectile) (wind : Vector3D), 0 < p.mass →
      p.calculateAcceleration wind =
        (gravityForceSpec p + dragForceSpec p wind + magnusForceSpec p wind) /
          p.mass) ∧
    (∀ (p : Projectile) (wind : Vector3D),
      (p.velocity - wind).magnitude = 0 → dragForceSpec p wind = ⟨0, 0, 0⟩) ∧
    (∀ (p : Projectile) (wind : Vector3D),
      0 < (p.velocity - wind).magnitude → 0 ≤ p.airDensity →
      0 ≤ p.dragCoefficient →
      (dragForceSpec p wind).magnitude =
        0.5 * p.airDensity * (p.velocity - wind).magnitude *
          (p.velocity - wind).magnitude * p.dragCoefficient *
          (Real.pi * p.radius * p.radius)) ∧
    (∀ (initialPos : Vector4D) (initialVel initialSpin : Vector3D)
        (m r airDensity SOverM dragCoeff : ℝ),
      (Projectile.construct initialPos initialVel initialSpin m r airDensity
          SOverM dragCoeff).S = SOverM * m) := by
  refine ⟨?_, ?_, ?_, ?_⟩
  · intro p wind _
    unfold Projectile.calculateAcceleration gravityForceSpec dragForceSpec
      magnusForceSpec Vector3D.cross GRAVITY
    dsimp only
    split_ifs with hs
    · ext <;> simp <;> ring
    · ext <;> simp
  · intro p wind h
    unfold dragForceSpec
    dsimp only
    rw [h, if_neg (lt_irrefl 0)]
  · intro p wind hs hρ hcd
    have harea : 0 ≤ Real.pi * p.radius * p.radius := by
      have h1 := mul_nonneg Real.pi_nonneg (mul_self_nonneg p.radius)
      rwa [← mul_assoc] at h1
    have hmag : 0 ≤ 0.5 * p.airDensity * (p.velocity - wind).magnitude *
        (p.velocity - wind).magnitude * p.dragCoefficient *
        (Real.pi * p.radius * p.radius) :=
      mul_nonneg
        (mul_nonneg
          (mul_nonneg (mul_nonneg (mul_nonneg (by norm_num) hρ) hs.le) hs.le)
          hcd)
        harea
    unfold dragForceSpec
    dsimp only
    rw [if_pos hs, Vector3D.magnitude_smul,
      Vector3D.normalize_magnitude _ hs, mul_one, abs_neg,
      abs_of_nonneg hmag]
  · intro initialPos initialVel initialSpin m r airDensity SOverM dragCoeff
    rfl

/-- Witness for C3 at a concrete state: unit mass, unit parameters, relative
velocity `(0, 0, 3)` against zero wind. -/
theorem C3_calculateAcceleration_decomposition_witness :
    (0 : ℝ) <
      (Projectile.construct ⟨0, 0, 0, 0⟩ ⟨0, 0, 3⟩ ⟨0, 0, 0⟩ 1 1 1 1 1).mass ∧
    (Projectile.construct ⟨0, 0, 0, 0⟩ ⟨0, 0, 3⟩ ⟨0, 0, 0⟩ 1 1 1 1
        1).calculateAcceleration ⟨0, 0, 0⟩ =
      (gravityForceSpec
          (Projectile.construct ⟨0, 0, 0, 0⟩ ⟨0, 0, 3⟩ ⟨0, 0, 0⟩ 1 1 1 1 1) +
        dragForceSpec
          (Projectile.construct ⟨0, 0, 0, 0⟩ ⟨0, 0, 3⟩ ⟨0, 0, 0⟩ 1 1 1 1 1)
          ⟨0, 0, 0⟩ +
        magnusForceSpec
          (Projectile.construct ⟨0, 0, 0, 0⟩ ⟨0, 0, 3⟩ ⟨0, 0, 0⟩ 1 1 1 1 1)
          ⟨0, 0, 0⟩) /
        (Projectile.construct ⟨0, 0, 0, 0⟩ ⟨0, 0, 3⟩ ⟨0, 0, 0⟩ 1 1 1 1
          1).mass := by
  have hm : (0 : ℝ) <
      (Projectile.construct ⟨0, 0, 0, 0⟩ ⟨0, 0, 3⟩ ⟨0, 0, 0⟩ 1 1 1 1
        1).mass := by
    norm_num [Projectile.construct]
  exact ⟨hm, C3_calculateAcceleration_decomposition.1 _ _ hm⟩

/-! ### C10 : the ground test -/

/-- C10: `isGrounded` holds exactly when `position.z <= 0` and
`velocity.z <= 0`; consequently a projectile at or below ground level that is
still moving upward is not grounded, and the simulation loop's guard passes,
so the loop executes its integration-step body. -/
theorem C10_isGrounded_iff :
    ∀ p : Projectile,
      (p.isGrounded ↔ p.position.z ≤ 0 ∧ p.velocity.z ≤ 0) ∧
      (p.position.z ≤ 0 → 0 < p.velocity.z →
        ¬p.isGrounded ∧
        ∀ (timeStep maxTime : ℝ) (wind : Vector3D) (fuel : ℕ)
          (trajectory : Trajectory),
          p.getTime < maxTime →
          rk4Loop timeStep wind maxTime (fuel + 1) p trajectory =
            (if (rk4Update p timeStep wind).1.z < 0 then
              ((p.move (rk4Update p timeStep wind).1
                  (rk4Update p timeStep wind).2).move
                ⟨(rk4Update p timeStep wind).1.x,
                 (rk4Update p timeStep wind).1.y, 0,
                 (rk4Update p timeStep wind).1.t⟩ ⟨0, 0, 0⟩,
               trajectory, true)
            else
              rk4Loop timeStep wind maxTime fuel
                (p.move (rk4Update p timeStep wind).1
                  (rk4Update p timeStep wind).2)
                (trajectory.addPoint
                  ((p.move (rk4Update p timeStep wind).1
                      (rk4Update p timeStep wind).2).position)))) := by
  intro p
  refine ⟨Iff.rfl, ?_⟩
  intro hz hv
  have hng : ¬p.isGrounded := fun hg => absurd hv (not_lt.mpr hg.2)
  refine ⟨hng, ?_⟩
  intro timeStep maxTime wind fuel trajectory ht
  rw [rk4Loop, if_pos ⟨hng, ht⟩]

/-! ### C4 : the RK4 step matches the specified four-stage scheme -/

theorem Vector3D.smul_half (v : Vector3D) : v * (0.5 : ℝ) = v / (2 : ℝ) := by
  ext <;> simp <;> ring

theorem Vector3D.smul_two (v : Vector3D) : v * (2.0 : ℝ) = v * (2 : ℝ) := by
  ext <;> simp <;> norm_num

theorem Vector3D.div_six (v : Vector3D) : v / (6.0 : ℝ) = v / (6 : ℝ) := by
  ext <;> simp <;> norm_num

/-- Time advance of one update: the new position's time coordinate is the old
one plus the time step. -/
theorem rk4Update_t (proj : Projectile) (timeStep : ℝ) (wind : Vector3D) :
    (rk4Update proj timeStep wind).1.t = proj.position.t + timeStep := by
  simp only [rk4Update]

/-- C4: the state update performed by each iteration of `rk4Simulation` is
exactly the four-stage RK4 scheme of the specification (`rk4StepSpec`), and
the elapsed time advances by exactly the time step. -/
theorem C4_rk4_step_matches_spec :
    ∀ (proj : Projectile) (timeStep : ℝ) (wind : Vector3D),
      rk4Update proj timeStep wind = rk4StepSpec proj timeStep wind ∧
      (rk4Update proj timeStep wind).1.t = proj.position.t + timeStep := by
  intro proj timeStep wind
  refine ⟨?_, rk4Update_t proj timeStep wind⟩
  simp only [rk4Update, rk4StepSpec, Vector3D.smul_half, Vector3D.smul_two,
    Vector3D.div_six]

/-! ### C8 : horizontal velocity invariance without drag and Magnus -/

/-- With zero drag (zero drag coefficient or zero air density) and zero Magnus
coupling (zero stored factor or zero spin), the x-component of the computed
acceleration is zero. -/
theorem calculateAcceleration_x_zero (p : Projectile) (wind : Vector3D)
    (hd : p.dragCoefficient = 0 ∨ p.airDensity = 0)
    (hs : p.S = 0 ∨ p.spin = ⟨0, 0, 0⟩) :
    (p.calculateAcceleration wind).x = 0 := by
  unfold Projectile.calculateAcceleration
  dsimp only
  split_ifs with hsp
  · rcases hd with hd | hd <;> rcases hs with hs | hs <;> simp [hd, hs]
  · rcases hs with hs | hs <;> simp [hs]

/-- With zero drag and zero Magnus coupling, the y-component of the computed
acceleration is zero. -/
theorem calculateAcceleration_y_zero (p : Projectile) (wind : Vector3D)
    (hd : p.dragCoefficient = 0 ∨ p.airDensity = 0)
    (hs : p.S = 0 ∨ p.spin = ⟨0, 0, 0⟩) :
    (p.calculateAcceleration wind).y = 0 := by
  unfold Projectile.calculateAcceleration
  dsimp only
  split_ifs with hsp
  · rcases hd with hd | hd <;> rcases hs with hs | hs <;> simp [hd, hs]
  · rcases hs with hs | hs <;> simp [hs]

/-- With zero drag and zero Magnus coupling, one RK4 update leaves both
horizontal velocity components exactly unchanged. -/
theorem rk4Update_horizontal (p : Projectile) (timeStep : ℝ)
    (wind : Vector3D) (hd : p.dragCoefficient = 0 ∨ p.airDensity = 0)
    (hs : p.S = 0 ∨ p.spin = ⟨0, 0, 0⟩) :
    (rk4Update p timeStep wind).2.x = p.velocity.x ∧
    (rk4Update p timeStep wind).2.y = p.velocity.y := by
  obtain ⟨pos, vel, spin, m, r, cd, ρ, S⟩ := p
  dsimp only at hd hs
  have hx : ∀ v : Vector3D,
      ((Projectile.mk pos v spin m r cd ρ S).calculateAcceleration wind).x =
        0 :=
    fun v => calculateAcceleration_x_zero _ wind hd hs
  have hy : ∀ v : Vector3D,
      ((Projectile.mk pos v spin m r cd ρ S).calculateAcceleration wind).y =
        0 :=
    fun v => calculateAcceleration_y_zero _ wind hd hs
  constructor <;>
    · unfold rk4Update
      dsimp only
      simp [hx, hy]

/-- With zero drag and zero Magnus coupling, the loop either preserves both
horizontal velocity components or ends on the ground-collision break, which
zeroes the whole velocity. -/
theorem rk4Loop_horizontal (timeStep : ℝ) (wind : Vector3D) (maxTime : ℝ) :
    ∀ (fuel : ℕ) (p : Projectile) (trajectory : Trajectory),
      (p.dragCoefficient = 0 ∨ p.airDensity = 0) →
      (p.S = 0 ∨ p.spin = ⟨0, 0, 0⟩) →
      ((rk4Loop timeStep wind maxTime fuel p trajectory).1.velocity.x =
          p.velocity.x ∧
        (rk4Loop timeStep wind maxTime fuel p trajectory).1.velocity.y =
          p.velocity.y) ∨
      (rk4Loop timeStep wind maxTime fuel p trajectory).1.velocity =
        ⟨0, 0, 0⟩ := by
  intro fuel
  induction fuel with
  | zero =>
    intro p trajectory hd hs
    rw [rk4Loop]
    exact Or.inl ⟨rfl, rfl⟩
  | succ n ih =>
    intro p trajectory hd hs
    rw [rk4Loop]
    by_cases hg : ¬p.isGrounded ∧ p.getTime < maxTime
    · rw [if_pos hg]
      dsimp only
      by_cases hz : (rk4Update p timeStep wind).1.z < 0
      · rw [if_pos hz]
        exact Or.inr rfl
      · rw [if_neg hz]
        have hd1 : (p.move (rk4Update p timeStep wind).1
              (rk4Update p timeStep wind).2).dragCoefficient = 0 ∨
            (p.move (rk4Update p timeStep wind).1
              (rk4Update p timeStep wind).2).airDensity = 0 := hd
        have hs1 : (p.move (rk4Update p timeStep wind).1
              (rk4Update p timeStep wind).2).S = 0 ∨
            (p.move (rk4Update p timeStep wind).1
              (rk4Update p timeStep wind).2).spin = ⟨0, 0, 0⟩ := hs
        rcases ih (p.move (rk4Update p timeStep wind).1
            (rk4Update p timeStep wind).2)
            (trajectory.addPoint (p.move (rk4Update p timeStep wind).1
              (rk4Update p timeStep wind).2).position) hd1 hs1 with
          ⟨ihx, ihy⟩ | ihzero
        · left
          have hstep := rk4Update_horizontal p timeStep wind hd hs
          constructor
          · rw [ihx]
            exact hstep.1
          · rw [ihy]
            exact hstep.2
        · exact Or.inr ihzero
    · rw [if_neg hg]
      exact Or.inl ⟨rfl, rfl⟩

/-- C8: with zero drag (zero drag coefficient or zero air density) and zero
Magnus coupling (zero stored spin factor or zero spin vector), every single
RK4 step leaves the horizontal velocity components exactly unchanged, and
along the whole simulation loop the projectile's horizontal velocity stays at
its initial value (until the ground-collision break, which zeroes the whole
velocity after the last recorded sample). -/
theorem C8_horizontal_velocity_invariant :
    ∀ (p : Projectile) (timeStep : ℝ) (wind : Vector3D) (maxTime : ℝ),
      (p.dragCoefficient = 0 ∨ p.airDensity = 0) →
      (p.S = 0 ∨ p.spin = ⟨0, 0, 0⟩) →
      ((rk4Update p timeStep wind).2.x = p.velocity.x ∧
        (rk4Update p timeStep wind).2.y = p.velocity.y) ∧
      ∀ (fuel : ℕ) (trajectory : Trajectory),
        ((rk4Loop timeStep wind maxTime fuel p trajectory).1.velocity.x =
            p.velocity.x ∧
          (rk4Loop timeStep wind maxTime fuel p trajectory).1.velocity.y =
            p.velocity.y) ∨
        (rk4Loop timeStep wind maxTime fuel p trajectory).1.velocity =
          ⟨0, 0, 0⟩ := by
  intro p timeStep wind maxTime hd hs
  exact ⟨rk4Update_horizontal p timeStep wind hd hs,
    fun fuel trajectory =>
      rk4Loop_horizontal timeStep wind maxTime fuel p trajectory hd hs⟩

/-- Witness for C8 at the drag-free spin-free projectile `projC1`. -/
theorem C8_horizontal_velocity_invariant_witness :
    (projC1.dragCoefficient = 0 ∨ projC1.airDensity = 0) ∧
    (projC1.S = 0 ∨ projC1.spin = ⟨0, 0, 0⟩) ∧
    (((rk4Update projC1 1 ⟨0, 0, 0⟩).2.x = projC1.velocity.x ∧
        (rk4Update projC1 1 ⟨0, 0, 0⟩).2.y = projC1.velocity.y) ∧
      ∀ (fuel : ℕ) (trajectory : Trajectory),
        ((rk4Loop 1 ⟨0, 0, 0⟩ 10 fuel projC1 trajectory).1.velocity.x =
            projC1.velocity.x ∧
          (rk4Loop 1 ⟨0, 0, 0⟩ 10 fuel projC1 trajectory).1.velocity.y =
            projC1.velocity.y) ∨
        (rk4Loop 1 ⟨0, 0, 0⟩ 10 fuel projC1 trajectory).1.velocity =
          ⟨0, 0, 0⟩) := by
  have hd : projC1.dragCoefficient = 0 ∨ projC1.airDensity = 0 := Or.inl rfl
  have hs : projC1.S = 0 ∨ projC1.spin = ⟨0, 0, 0⟩ := Or.inr rfl
  exact ⟨hd, hs,
    C8_horizontal_velocity_invariant projC1 1 ⟨0, 0, 0⟩ 10 hd hs⟩

/-! ### C9 : loop termination and stop conditions -/

theorem move_getTime (p : Projectile) (pos : Vector4D) (vel : Vector3D) :
    (p.move pos vel).getTime = pos.t := rfl

/-- Fuel sufficiency: if the supplied fuel covers the remaining time budget,
the loop exits the way the C++ loop does (flag `true`) and on exit the
projectile is grounded or has reached the stop time. -/
theorem rk4Loop_finishes (timeStep : ℝ) (wind : Vector3D) (maxTime : ℝ)
    (hh : 0 < timeStep) :
    ∀ (fuel : ℕ) (p : Projectile) (trajectory : Trajectory),
      maxTime ≤ p.getTime + fuel * timeStep →
      (rk4Loop timeStep wind maxTime (fuel + 1) p trajectory).2.2 = true ∧
      ((rk4Loop timeStep wind maxTime (fuel + 1) p trajectory).1.isGrounded ∨
        maxTime ≤
          (rk4Loop timeStep wind maxTime (fuel + 1) p
              trajectory).1.getTime) := by
  intro fuel
  induction fuel with
  | zero =>
    intro p trajectory hb
    have hb' : maxTime ≤ p.getTime := by simpa using hb
    rw [rk4Loop]
    have hg : ¬(¬p.isGrounded ∧ p.getTime < maxTime) := by
      rintro ⟨-, hlt⟩
      exact absurd hlt (not_lt.mpr hb')
    rw [if_neg hg]
    exact ⟨rfl, Or.inr hb'⟩
  | succ n ih =>
    intro p trajectory hb
    rw [rk4Loop]
    by_cases hg : ¬p.isGrounded ∧ p.getTime < maxTime
    · rw [if_pos hg]
      dsimp only
      by_cases hz : (rk4Update p timeStep wind).1.z < 0
      · rw [if_pos hz]
        exact ⟨rfl, Or.inl ⟨le_refl 0, le_refl 0⟩⟩
      · rw [if_neg hz]
        apply ih
        rw [move_getTime, rk4Update_t]
        have hcast : ((n + 1 : ℕ) : ℝ) = (n : ℝ) + 1 := by push_cast; ring
        rw [hcast] at hb
        have : maxTime ≤ p.getTime + ((n : ℝ) + 1) * timeStep := hb
        have hexp : p.getTime + ((n : ℝ) + 1) * timeStep =
            p.position.t + timeStep + (n : ℝ) * timeStep := by
          unfold Projectile.getTime
          ring
        linarith [hexp ▸ this]
    · rw [if_neg hg]
      rcases not_and_or.mp hg with hgr | hlt
      · exact ⟨rfl, Or.inl (not_not.mp hgr)⟩
      · exact ⟨rfl, Or.inr (not_lt.mp hlt)⟩

/-- C9: for every positive time step and positive maximum time the simulation
loop terminates after finitely many iterations with the C++ exit conditions
(flag `true`), and on return the projectile is grounded or its elapsed time
has reached the configured maximum time. -/
theorem C9_loop_terminates (p : Projectile) (timeStep : ℝ) (wind : Vector3D)
    (maxTime : ℝ) (hh : 0 < timeStep) (hmt : 0 < maxTime) :
    (rk4Simulation p timeStep wind maxTime).2.2 = true ∧
    ((rk4Simulation p timeStep wind maxTime).1.isGrounded ∨
      maxTime ≤ (rk4Simulation p timeStep wind maxTime).1.getTime) := by
  unfold rk4Simulation
  apply rk4Loop_finishes timeStep wind maxTime hh
  have h1 : (maxTime - p.getTime) / timeStep ≤
      (⌈(maxTime - p.getTime) / timeStep⌉₊ : ℝ) :=
    Nat.le_ceil _
  rw [div_le_iff hh] at h1
  linarith

/-- Witness for C9 at the concrete run of `projC1` with step 1, no wind,
maximum time 10. -/
theorem C9_loop_terminates_witness :
    (0 : ℝ) < 1 ∧ (0 : ℝ) < 10 ∧
    ((rk4Simulation projC1 1 ⟨0, 0, 0⟩ 10).2.2 = true ∧
      ((rk4Simulation projC1 1 ⟨0, 0, 0⟩ 10).1.isGrounded ∨
        (10 : ℝ) ≤ (rk4Simulation projC1 1 ⟨0, 0, 0⟩ 10).1.getTime)) :=
  ⟨by norm_num, by norm_num,
    C9_loop_terminates projC1 1 ⟨0, 0, 0⟩ 10 (by norm_num) (by norm_num)⟩

/-! ### C6 : trajectory times and first sample -/

/-- The loop only ever appends to the trajectory it is given. -/
theorem rk4Loop_traj_append (timeStep : ℝ) (wind : Vector3D) (maxTime : ℝ) :
    ∀ (fuel : ℕ) (p : Projectile) (trajectory : Trajectory),
      ∃ rest : List Vector4D,
        (rk4Loop timeStep wind maxTime fuel p trajectory).2.1 =
          trajectory ++ rest := by
  intro fuel
  induction fuel with
  | zero =>
    intro p trajectory
    exact ⟨[], by rw [rk4Loop]; simp⟩
  | succ n ih =>
    intro p trajectory
    rw [rk4Loop]
    by_cases hg : ¬p.isGrounded ∧ p.getTime < maxTime
    · rw [if_pos hg]
      dsimp only
      by_cases hz : (rk4Update p timeStep wind).1.z < 0
      · rw [if_pos hz]
        exact ⟨[], by simp⟩
      · rw [if_neg hz]
        obtain ⟨rest, hrest⟩ := ih (p.move (rk4Update p timeStep wind).1
            (rk4Update p timeStep wind).2)
          (trajectory.addPoint (p.move (rk4Update p timeStep wind).1
            (rk4Update p timeStep wind).2).position)
        refine ⟨(p.move (rk4Update p timeStep wind).1
            (rk4Update p timeStep wind).2).position :: rest, ?_⟩
        rw [hrest]
        simp [Trajectory.addPoint]
    · rw [if_neg hg]
      exact ⟨[], by simp⟩

/-- Strict time growth of the recorded samples, as a loop invariant: if the
trajectory so far is strictly increasing in time and its last sample carries
the projectile's current time, the whole recorded trajectory is strictly
increasing in time. -/
theorem rk4Loop_chain (timeStep : ℝ) (wind : Vector3D) (maxTime : ℝ)
    (hh : 0 < timeStep) :
    ∀ (fuel : ℕ) (p : Projectile) (trajectory : Trajectory),
      List.Chain' (fun a b : Vector4D => a.t < b.t) trajectory →
      (∀ q, trajectory.getLast? = some q → q.t = p.getTime) →
      List.Chain' (fun a b : Vector4D => a.t < b.t)
        (rk4Loop timeStep wind maxTime fuel p trajectory).2.1 := by
  intro fuel
  induction fuel with
  | zero =>
    intro p trajectory hchain hlast
    rw [rk4Loop]
    exact hchain
  | succ n ih =>
    intro p trajectory hchain hlast
    rw [rk4Loop]
    by_cases hg : ¬p.isGrounded ∧ p.getTime < maxTime
    · rw [if_pos hg]
      dsimp only
      by_cases hz : (rk4Update p timeStep wind).1.z < 0
      · rw [if_pos hz]
        exact hchain
      · rw [if_neg hz]
        apply ih
        · unfold Trajectory.addPoint
          rw [List.chain'_append]
          refine ⟨hchain, List.chain'_singleton _, ?_⟩
          intro a ha b hb
          simp only [List.head?_cons, Option.mem_def, Option.some.injEq]
            at hb
          rw [← hb]
          have hat : a.t = p.getTime := hlast a ha
          have hbt : (p.move (rk4Update p timeStep wind).1
              (rk4Update p timeStep wind).2).position.t =
              p.getTime + timeStep := by
            show (rk4Update p timeStep wind).1.t = p.getTime + timeStep
            exact rk4Update_t p timeStep wind
          rw [hat, hbt]
          linarith
        · intro q hq
          unfold Trajectory.addPoint at hq
          rw [List.getLast?_concat] at hq
          have hq' : (p.move (rk4Update p timeStep wind).1
              (rk4Update p timeStep wind).2).position = q :=
            Option.some.inj hq
          rw [← hq', move_getTime]
          exact (rk4Update_t p timeStep wind).symm ▸ rfl
    · rw [if_neg hg]
      exact hchain

/-- C6: for every positive time step, the first recorded sample is exactly
the supplied initial position-and-time, and the recorded times are strictly
increasing in insertion order (hence non-decreasing, as the specification
states). -/
theorem C6_trajectory_monotone (p : Projectile) (timeStep : ℝ)
    (wind : Vector3D) (maxTime : ℝ) (hh : 0 < timeStep) :
    ((rk4Simulation p timeStep wind maxTime).2.1).head? = some p.position ∧
    List.Chain' (fun a b : Vector4D => a.t < b.t)
      (rk4Simulation p timeStep wind maxTime).2.1 := by
  constructor
  · unfold rk4Simulation
    obtain ⟨rest, hrest⟩ := rk4Loop_traj_append timeStep wind maxTime
      (⌈(maxTime - p.getTime) / timeStep⌉₊ + 1) p
      (Trajectory.addPoint [] p.position)
    rw [hrest]
    simp [Trajectory.addPoint]
  · unfold rk4Simulation
    apply rk4Loop_chain timeStep wind maxTime hh
    · simp [Trajectory.addPoint]
    · intro q hq
      simp only [Trajectory.addPoint, List.nil_append,
        List.getLast?_singleton, Option.some.injEq] at hq
      rw [← hq]
      rfl

/-- Witness for C6 at the concrete run of `projC5` with step 1, no wind,
maximum time 1. -/
theorem C6_trajectory_monotone_witness :
    (0 : ℝ) < 1 ∧
    (((rk4Simulation projC5 1 ⟨0, 0, 0⟩ 1).2.1).head? =
        some projC5.position ∧
      List.Chain' (fun a b : Vector4D => a.t < b.t)
        (rk4Simulation projC5 1 ⟨0, 0, 0⟩ 1).2.1) :=
  ⟨by norm_num, C6_trajectory_monotone projC5 1 ⟨0, 0, 0⟩ 1 (by norm_num)⟩

/-! ### C1 : what the last recorded sample actually is -/

/-- Loop invariant for the last recorded sample: as long as the trajectory's
last sample is the projectile's current position, on exit either the last
sample is the returned projectile's position (guard exit), or the loop broke
on ground collision, in which case the returned projectile holds the clamped
grounded state (height 0, zero velocity) while the trajectory's last sample
is one time step older — the clamped state was never appended. -/
theorem rk4Loop_last_sample (timeStep : ℝ) (wind : Vector3D) (maxTime : ℝ) :
    ∀ (fuel : ℕ) (p : Projectile) (trajectory : Trajectory),
      trajectory.getLast? = some p.position →
      ((rk4Loop timeStep wind maxTime fuel p trajectory).2.1.getLast? =
          some (rk4Loop timeStep wind maxTime fuel p
            trajectory).1.position) ∨
      ((rk4Loop timeStep wind maxTime fuel p trajectory).1.velocity =
          ⟨0, 0, 0⟩ ∧
        (rk4Loop timeStep wind maxTime fuel p
          trajectory).1.position.z = 0 ∧
        ∃ q : Vector4D,
          (rk4Loop timeStep wind maxTime fuel p
              trajectory).2.1.getLast? = some q ∧
          q.t + timeStep =
            (rk4Loop timeStep wind maxTime fuel p
              trajectory).1.position.t) := by
  intro fuel
  induction fuel with
  | zero =>
    intro p trajectory hlast
    rw [rk4Loop]
    exact Or.inl hlast
  | succ n ih =>
    intro p trajectory hlast
    rw [rk4Loop]
    by_cases hg : ¬p.isGrounded ∧ p.getTime < maxTime
    · rw [if_pos hg]
      dsimp only
      by_cases hz : (rk4Update p timeStep wind).1.z < 0
      · rw [if_pos hz]
        refine Or.inr ⟨rfl, rfl, p.position, hlast, ?_⟩
        show p.position.t + timeStep = (rk4Update p timeStep wind).1.t
        exact (rk4Update_t p timeStep wind).symm
      · rw [if_neg hz]
        apply ih
        unfold Trajectory.addPoint
        rw [List.getLast?_concat]
    · rw [if_neg hg]
      exact Or.inl hlast

/-- C1 (amended): the last recorded sample is the state at loop exit
(stop-time cutoff, or a guard exit with the projectile already grounded),
except on ground impact within a step: there the projectile is clamped
(height 0, velocity zeroed) but the loop breaks BEFORE appending, so the
clamped grounded state is NOT recorded; the last sample is then the state
from one time step before the impact. -/
theorem C1_last_sample (p : Projectile) (timeStep : ℝ) (wind : Vector3D)
    (maxTime : ℝ) :
    ((rk4Simulation p timeStep wind maxTime).2.1.getLast? =
        some (rk4Simulation p timeStep wind maxTime).1.position) ∨
    ((rk4Simulation p timeStep wind maxTime).1.velocity = ⟨0, 0, 0⟩ ∧
      (rk4Simulation p timeStep wind maxTime).1.position.z = 0 ∧
      ∃ q : Vector4D,
        (rk4Simulation p timeStep wind maxTime).2.1.getLast? = some q ∧
        q.t + timeStep =
          (rk4Simulation p timeStep wind maxTime).1.position.t) := by
  unfold rk4Simulation
  apply rk4Loop_last_sample
  simp [Trajectory.addPoint]

/-! ### Closed-form evaluation with zero drag and zero spin -/

/-- With zero air density, zero spin and nonzero mass, the computed
acceleration is exactly `(0, 0, -GRAVITY)`. -/
theorem calculateAcceleration_gravity (p : Projectile) (wind : Vector3D)
    (hρ : p.airDensity = 0) (hsp : p.spin = ⟨0, 0, 0⟩) (hm : p.mass ≠ 0) :
    p.calculateAcceleration wind = ⟨0, 0, -GRAVITY⟩ := by
  unfold Projectile.calculateAcceleration
  dsimp only
  split_ifs with hs <;>
    · ext <;> simp [hρ, hsp] <;> field_simp <;> ring

/-- With zero air density, zero spin and nonzero mass (constant gravitational
acceleration), one RK4 update has this closed form. -/
theorem rk4Update_gravity (p : Projectile) (timeStep : ℝ) (wind : Vector3D)
    (hρ : p.airDensity = 0) (hsp : p.spin = ⟨0, 0, 0⟩) (hm : p.mass ≠ 0) :
    rk4Update p timeStep wind =
      (⟨p.position.x + p.velocity.x * timeStep,
        p.position.y + p.velocity.y * timeStep,
        p.position.z +
          (p.velocity.z * timeStep - GRAVITY * (timeStep * timeStep) / 2),
        p.position.t + timeStep⟩,
       ⟨p.velocity.x, p.velocity.y,
        p.velocity.z - GRAVITY * timeStep⟩) := by
  obtain ⟨pos, vel, spin, m, r, cd, ρ, S⟩ := p
  dsimp only at hρ hsp hm ⊢
  have ha : ∀ v : Vector3D,
      (Projectile.mk pos v spin m r cd ρ S).calculateAcceleration wind =
        ⟨0, 0, -GRAVITY⟩ :=
    fun v => calculateAcceleration_gravity _ wind hρ hsp hm
  unfold rk4Update
  dsimp only
  simp only [ha, Prod.mk.injEq]
  constructor
  · ext <;> simp <;> ring
  · ext <;> simp <;> ring

/-- C1 counterexample: for the drag-free unit-mass projectile dropped from
height 1 (step 1, no wind, maximum time 10) the first step drives the height
below 0, the loop breaks, and the returned trajectory is just the initial
sample `(0,0,1,0)` — whose height is 1 and whose time 0 is far from the stop
time — while the clamped ground-impact state `(0,0,0,1)` with zero velocity
is held only by the projectile and never appears in the trajectory. -/
theorem C1_counterexample :
    (rk4Simulation projC1 1 ⟨0, 0, 0⟩ 10).2.1 = [⟨0, 0, 1, 0⟩] ∧
    (rk4Simulation projC1 1 ⟨0, 0, 0⟩ 10).1.position = ⟨0, 0, 0, 1⟩ ∧
    (rk4Simulation projC1 1 ⟨0, 0, 0⟩ 10).1.velocity = ⟨0, 0, 0⟩ ∧
    (⟨0, 0, 0, 1⟩ : Vector4D) ∉ (rk4Simulation projC1 1 ⟨0, 0, 0⟩ 10).2.1 ∧
    (1 : ℝ) ≠ 0 ∧ (0 : ℝ) < 10 := by
  have hρ : projC1.airDensity = 0 := rfl
  have hsp : projC1.spin = ⟨0, 0, 0⟩ := rfl
  have hm : projC1.mass ≠ 0 := by norm_num [projC1, Projectile.construct]
  have hup := rk4Update_gravity projC1 1 ⟨0, 0, 0⟩ hρ hsp hm
  have hng : ¬projC1.isGrounded := by
    intro hgr
    have h1 := hgr.1
    norm_num [projC1, Projectile.construct] at h1
  have ht : projC1.getTime < 10 := by
    norm_num [projC1, Projectile.construct, Projectile.getTime]
  have hz : (rk4Update projC1 1 ⟨0, 0, 0⟩).1.z < 0 := by
    rw [hup]
    norm_num [projC1, Projectile.construct, GRAVITY]
  have hrun : rk4Simulation projC1 1 ⟨0, 0, 0⟩ 10 =
      ((projC1.move (rk4Update projC1 1 ⟨0, 0, 0⟩).1
          (rk4Update projC1 1 ⟨0, 0, 0⟩).2).move
        ⟨(rk4Update projC1 1 ⟨0, 0, 0⟩).1.x,
         (rk4Update projC1 1 ⟨0, 0, 0⟩).1.y, 0,
         (rk4Update projC1 1 ⟨0, 0, 0⟩).1.t⟩ ⟨0, 0, 0⟩,
       Trajectory.addPoint [] projC1.position, true) := by
    unfold rk4Simulation
    rw [rk4Loop, if_pos ⟨hng, ht⟩]
    dsimp only
    rw [if_pos hz]
  rw [hrun]
  refine ⟨?_, ?_, ?_, ?_, by norm_num, by norm_num⟩
  · simp [Trajectory.addPoint, projC1, Projectile.construct]
  · rw [Projectile.move, Projectile.move]
    dsimp only
    rw [hup]
    dsimp only
    ext <;> norm_num [projC1, Projectile.construct]
  · rfl
  · simp only [Trajectory.addPoint, List.nil_append, List.mem_singleton]
    intro hmem
    have h1 := congrArg Vector4D.z hmem
    norm_num [projC1, Projectile.construct] at h1

/-! ### C2 : no configuration validation exists -/

/-- C2 counterexample: with mass, time step and maximum time all `-1` (all
non-positive), the constructor stores the mass unchanged and `rk4Simulation`
simply proceeds and returns a normal result (the single-sample trajectory and
the regular exit flag) — there is no rejection and no configuration-error
path anywhere in its type or behavior. -/
theorem C2_counterexample :
    (projC2.mass = -1 ∧ (-1 : ℝ) ≤ 0) ∧
    rk4Simulation projC2 (-1) ⟨0, 0, 0⟩ (-1) =
      (projC2, [projC2.position], true) := by
  refine ⟨⟨rfl, by norm_num⟩, ?_⟩
  have hg : ¬(¬projC2.isGrounded ∧ projC2.getTime < -1) := by
    rintro ⟨-, hlt⟩
    norm_num [projC2, Projectile.construct, Projectile.getTime] at hlt
  unfold rk4Simulation
  rw [rk4Loop, if_neg hg]
  simp [Trajectory.addPoint]

/-- C2 (amended): the code performs no configuration validation at all: the
constructor stores any supplied mass (positive or not) unchanged, and
`rk4Simulation` runs unconditionally for any time step and maximum time; in
particular when the maximum time is not beyond the initial time it returns
only the initial sample, with no error reported (no error channel exists). -/
theorem C2_no_validation :
    (∀ (initialPos : Vector4D) (initialVel initialSpin : Vector3D)
        (m r airDensity SOverM dragCoeff : ℝ),
      (Projectile.construct initialPos initialVel initialSpin m r airDensity
          SOverM dragCoeff).mass = m ∧
      (Projectile.construct initialPos initialVel initialSpin m r airDensity
          SOverM dragCoeff).position = initialPos) ∧
    ∀ (p : Projectile) (timeStep : ℝ) (wind : Vector3D) (maxTime : ℝ),
      maxTime ≤ p.getTime →
      rk4Simulation p timeStep wind maxTime = (p, [p.position], true) := by
  constructor
  · intro initialPos initialVel initialSpin m r airDensity SOverM dragCoeff
    exact ⟨rfl, rfl⟩
  · intro p timeStep wind maxTime hmt
    have hg : ¬(¬p.isGrounded ∧ p.getTime < maxTime) := by
      rintro ⟨-, hlt⟩
      exact absurd hlt (not_lt.mpr hmt)
    unfold rk4Simulation
    rw [rk4Loop, if_neg hg]
    simp [Trajectory.addPoint]

/-- Witness for C2 (amended) at the all-negative configuration `projC2`. -/
theorem C2_no_validation_witness :
    (-1 : ℝ) ≤ projC2.getTime ∧
    rk4Simulation projC2 (-1) ⟨0, 0, 0⟩ (-1) =
      (projC2, [projC2.position], true) := by
  have h : (-1 : ℝ) ≤ projC2.getTime := by
    norm_num [projC2, Projectile.construct, Projectile.getTime]
  exact ⟨h, C2_no_validation.2 projC2 (-1) ⟨0, 0, 0⟩ (-1) h⟩

/-! ### C5 : initial ground contact -/

/-- C5 counterexample: `projC5` starts at height exactly 0 but with upward
velocity 100; with step 1, no wind and maximum time 1 the run does NOT
terminate immediately — a full integration step executes and appends the
sample `(0, 0, 19019/200, 1)`, so the final sample differs from the initial
one. -/
theorem C5_counterexample :
    projC5.position.z ≤ 0 ∧
    (rk4Simulation projC5 1 ⟨0, 0, 0⟩ 1).2.1 =
      [⟨0, 0, 0, 0⟩, ⟨0, 0, 19019 / 200, 1⟩] ∧
    (rk4Simulation projC5 1 ⟨0, 0, 0⟩ 1).2.1.getLast? ≠
      some projC5.position := by
  have hρ : projC5.airDensity = 0 := rfl
  have hsp : projC5.spin = ⟨0, 0, 0⟩ := rfl
  have hm : projC5.mass ≠ 0 := by norm_num [projC5, Projectile.construct]
  have hup := rk4Update_gravity projC5 1 ⟨0, 0, 0⟩ hρ hsp hm
  have hng : ¬projC5.isGrounded := by
    intro hgr
    have h2 := hgr.2
    norm_num [projC5, Projectile.construct] at h2
  have ht : projC5.getTime < 1 := by
    norm_num [projC5, Projectile.construct, Projectile.getTime]
  have hz : ¬(rk4Update projC5 1 ⟨0, 0, 0⟩).1.z < 0 := by
    rw [hup]
    norm_num [projC5, Projectile.construct, GRAVITY]
  have hg2 : ¬(¬(projC5.move (rk4Update projC5 1 ⟨0, 0, 0⟩).1
        (rk4Update projC5 1 ⟨0, 0, 0⟩).2).isGrounded ∧
      (projC5.move (rk4Update projC5 1 ⟨0, 0, 0⟩).1
        (rk4Update projC5 1 ⟨0, 0, 0⟩).2).getTime < 1) := by
    rintro ⟨-, hlt⟩
    rw [move_getTime, rk4Update_t] at hlt
    norm_num [projC5, Projectile.construct] at hlt
  have hc : ⌈((1 : ℝ) - projC5.getTime) / 1⌉₊ = 0 + 1 := by
    norm_num [projC5, Projectile.construct, Projectile.getTime]
  have hrun : rk4Simulation projC5 1 ⟨0, 0, 0⟩ 1 =
      (projC5.move (rk4Update projC5 1 ⟨0, 0, 0⟩).1
        (rk4Update projC5 1 ⟨0, 0, 0⟩).2,
       Trajectory.addPoint (Trajectory.addPoint [] projC5.position)
         (projC5.move (rk4Update projC5 1 ⟨0, 0, 0⟩).1
           (rk4Update projC5 1 ⟨0, 0, 0⟩).2).position,
       true) := by
    unfold rk4Simulation
    rw [hc, rk4Loop, if_pos ⟨hng, ht⟩]
    dsimp only
    rw [if_neg hz, rk4Loop, if_neg hg2]
  have hpos : (projC5.move (rk4Update projC5 1 ⟨0, 0, 0⟩).1
      (rk4Update projC5 1 ⟨0, 0, 0⟩).2).position =
      ⟨0, 0, 19019 / 200, 1⟩ := by
    rw [Projectile.move]
    dsimp only
    rw [hup]
    dsimp only
    ext <;> norm_num [projC5, Projectile.construct, GRAVITY]
  refine ⟨by norm_num [projC5, Projectile.construct], ?_, ?_⟩
  · rw [hrun]
    simp only [Trajectory.addPoint, List.nil_append, List.singleton_append]
    rw [hpos]
    norm_num [projC5, Projectile.construct]
  · rw [hrun]
    simp only [Trajectory.addPoint, List.nil_append, List.singleton_append]
    rw [hpos]
    simp only [List.getLast?_cons_cons, List.getLast?_singleton]
    intro hmem
    have h1 := congrArg Vector4D.t (Option.some.inj hmem)
    norm_num [projC5, Projectile.construct] at h1

/-- C5 (amended): a run terminates immediately with the initial sample as the
only sample exactly under the code's ground test — initial height at or below
0 AND vertical velocity at or below 0.  (With upward vertical velocity the
loop instead performs integration steps, as `C5_counterexample` shows.)  Such
a run is valid: there is no error path. -/
theorem C5_grounded_immediate :
    ∀ (p : Projectile) (timeStep : ℝ) (wind : Vector3D) (maxTime : ℝ),
      p.position.z ≤ 0 → p.velocity.z ≤ 0 →
      rk4Simulation p timeStep wind maxTime = (p, [p.position], true) := by
  intro p timeStep wind maxTime hz hv
  have hg : ¬(¬p.isGrounded ∧ p.getTime < maxTime) := by
    rintro ⟨hng, -⟩
    exact hng ⟨hz, hv⟩
  unfold rk4Simulation
  rw [rk4Loop, if_neg hg]
  simp [Trajectory.addPoint]

/-- Witness for C5 (amended) at a projectile resting at the origin. -/
theorem C5_grounded_immediate_witness :
    (Projectile.construct ⟨0, 0, 0, 0⟩ ⟨0, 0, 0⟩ ⟨0, 0, 0⟩ 1 1 1 1
        1).position.z ≤ 0 ∧
    (Projectile.construct ⟨0, 0, 0, 0⟩ ⟨0, 0, 0⟩ ⟨0, 0, 0⟩ 1 1 1 1
        1).velocity.z ≤ 0 ∧
    rk4Simulation
        (Projectile.construct ⟨0, 0, 0, 0⟩ ⟨0, 0, 0⟩ ⟨0, 0, 0⟩ 1 1 1 1 1) 1
        ⟨0, 0, 0⟩ 1 =
      (Projectile.construct ⟨0, 0, 0, 0⟩ ⟨0, 0, 0⟩ ⟨0, 0, 0⟩ 1 1 1 1 1,
       [(Projectile.construct ⟨0, 0, 0, 0⟩ ⟨0, 0, 0⟩ ⟨0, 0, 0⟩ 1 1 1 1
          1).position],
       true) := by
  have hz : (Projectile.construct ⟨0, 0, 0, 0⟩ ⟨0, 0, 0⟩ ⟨0, 0, 0⟩ 1 1 1 1
      1).position.z ≤ 0 := by norm_num [Projectile.construct]
  have hv : (Projectile.construct ⟨0, 0, 0, 0⟩ ⟨0, 0, 0⟩ ⟨0, 0, 0⟩ 1 1 1 1
      1).velocity.z ≤ 0 := by norm_num [Projectile.construct]
  exact ⟨hz, hv, C5_grounded_immediate _ 1 ⟨0, 0, 0⟩ 1 hz hv⟩

/-- Witness for C10 at `projC5`: height exactly 0 but upward velocity 100,
hence not grounded. -/
theorem C10_isGrounded_iff_witness :
    projC5.position.z ≤ 0 ∧ 0 < projC5.velocity.z ∧ ¬projC5.isGrounded := by
  have h1 : projC5.position.z ≤ 0 := by
    norm_num [projC5, Projectile.construct]
  have h2 : 0 < projC5.velocity.z := by
    norm_num [projC5, Projectile.construct]
  exact ⟨h1, h2, ((C10_isGrounded_iff projC5).2 h1 h2).1⟩
